import Mathlib

/-!
Verification of the backend supervisor in `src/ui/src-tauri/src/lib.rs`.

The source is a Tauri `run` function whose setup closure, compiled only for
`target_os = "windows"`, derives paths from the compile-time manifest
directory, opens two append-mode log files (unwrapping on failure), builds a
`std::process::Command` launching the backend through the venv python, spawns
it, and records the outcome in a status file whose write result is discarded
with `.ok()`.

The embedding models the filesystem as a partial map from path strings to
file contents, and the operating-system outcomes (whether each append-open
succeeds, the spawn result, whether each status write succeeds) as an oracle
record, so that the setup closure becomes a pure function from oracle,
manifest directory and filesystem to an outcome record.
-/

/-- The filesystem: a partial map from absolute path to file content. -/
abbrev FS := String → Option String

namespace FS

/-- Rust `std::fs::write`: create-or-truncate the whole file to `c`. -/
def write_trunc (fs : FS) (p c : String) : FS :=
  fun q => if q = p then some c else fs q

/-- Rust `OpenOptions::new().create(true).append(true).open(p)`: create the file
empty if absent, keep its content intact if present (append mode never
truncates). -/
def open_append_create (fs : FS) (p : String) : FS :=
  fun q => if q = p then some ((fs p).getD "") else fs q

end FS

/-- Oracle for the operating-system outcomes the setup closure observes:
whether opening a given path in create/append mode succeeds, the result of
the one `spawn` call (child pid, or OS error message), and whether
`std::fs::write` at a given path succeeds. -/
structure OsEnv where
  open_append_ok : String → Bool
  spawn_result : Except String Nat
  write_ok : String → Bool

/-- Rust `std::process::Command` after configuration: program, working directory,
accumulated argument vector, stdout/stderr redirection targets, and the
Windows process-creation flags. -/
structure Command where
  program : String
  cwd : Option String
  argv : List String
  stdout_redirect : Option String
  stderr_redirect : Option String
  flags : Nat
deriving DecidableEq, Repr

namespace Command

/-- Rust `Command::new(program)`: no cwd, empty argv, inherited stdio, zero flags. -/
def new (program : String) : Command :=
  { program := program, cwd := none, argv := [], stdout_redirect := none,
    stderr_redirect := none, flags := 0 }

/-- Rust `cmd.current_dir(d)`. -/
def current_dir (c : Command) (d : String) : Command := { c with cwd := some d }

/-- Rust `cmd.args(l)`: appends to the argument vector. -/
def args (c : Command) (l : List String) : Command := { c with argv := c.argv ++ l }

/-- Rust `cmd.stdout(Stdio::from(file))` where `file` was opened at path `p`. -/
def stdout (c : Command) (p : String) : Command := { c with stdout_redirect := some p }

/-- Rust `cmd.stderr(Stdio::from(file))` where `file` was opened at path `p`. -/
def stderr (c : Command) (p : String) : Command := { c with stderr_redirect := some p }

/-- Rust `cmd.creation_flags(f)` from the Windows `CommandExt`. -/
def creation_flags (c : Command) (f : Nat) : Command := { c with flags := f }

end Command

/-- How the setup closure ends: `panicked` models an `unwrap` on an `Err`
(the panic propagates and aborts host startup); `returnedOk` models the
closure reaching its final `Ok(())`. -/
inductive SetupResult where
  | panicked (msg : String)
  | returnedOk
deriving DecidableEq, Repr

/-- Observable outcome of one invocation of the setup closure: how it ended,
the filesystem afterwards, the list of spawn attempts made (each recorded as
the fully configured command), how many child processes were actually
created, and whether the closure ever blocked waiting on a child. -/
structure SetupOutcome where
  result : SetupResult
  fs : FS
  spawn_attempts : List Command
  children_created : Nat
  waited_on_child : Bool

/-- Source line `backend_dir = format!(r"{}\..\..\backend", manifest_dir)` -/
def backend_dir (manifest_dir : String) : String :=
  manifest_dir ++ "\\..\\..\\backend"

/-- Source line `python_exe = format!(r"{}\.venv\Scripts\python.exe", backend_dir)` -/
def python_exe (manifest_dir : String) : String :=
  backend_dir manifest_dir ++ "\\.venv\\Scripts\\python.exe"

/-- Source line `out_path = format!(r"{}\backend_out.log", backend_dir)` -/
def out_path (manifest_dir : String) : String :=
  backend_dir manifest_dir ++ "\\backend_out.log"

/-- Source line `err_path = format!(r"{}\backend_err.log", backend_dir)` -/
def err_path (manifest_dir : String) : String :=
  backend_dir manifest_dir ++ "\\backend_err.log"

/-- Path of the success status file `tauri_spawn_ok.log`. -/
def spawn_ok_path (manifest_dir : String) : String :=
  backend_dir manifest_dir ++ "\\tauri_spawn_ok.log"

/-- Path of the failure status file `tauri_spawn_err.log`. -/
def spawn_err_path (manifest_dir : String) : String :=
  backend_dir manifest_dir ++ "\\tauri_spawn_err.log"

/-- Rust `std::fs::write(p, c).ok()`: perform the truncating write when the OS
reports success, silently drop the error (leaving the file as it was)
otherwise. -/
def fs_write_dropped (env : OsEnv) (fs : FS) (p c : String) : FS :=
  if env.write_ok p then fs.write_trunc p c else fs

/-- Body of the windows-only conditionally compiled block of the setup closure, line by
line: open the two log files (unwrap), configure the command, spawn once,
and record the outcome with a dropped-result write. -/
def windows_setup (env : OsEnv) (manifest_dir : String) (fs : FS) : SetupOutcome :=
  let bdir := backend_dir manifest_dir
  let pexe := python_exe manifest_dir
  let outp := out_path manifest_dir
  let errp := err_path manifest_dir
  if env.open_append_ok outp = true then
    let fs1 := fs.open_append_create outp
    if env.open_append_ok errp = true then
      let fs2 := fs1.open_append_create errp
      let cmd :=
        ((((((Command.new pexe).current_dir bdir).args
          ["-m", "uvicorn", "main:app", "--host", "127.0.0.1", "--port", "8000"]).stdout
          outp).stderr errp).creation_flags 0x08000000)
      match env.spawn_result with
      | .ok _child =>
        { result := .returnedOk
          fs := fs_write_dropped env fs2 (spawn_ok_path manifest_dir) "spawn ok\n"
          spawn_attempts := [cmd]
          children_created := 1
          waited_on_child := false }
      | .error e =>
        { result := .returnedOk
          fs := fs_write_dropped env fs2 (spawn_err_path manifest_dir)
            ("spawn error: " ++ e ++ "\n")
          spawn_attempts := [cmd]
          children_created := 0
          waited_on_child := false }
    else
      { result := .panicked "called Result::unwrap on an Err value"
        fs := fs1, spawn_attempts := [], children_created := 0,
        waited_on_child := false }
  else
    { result := .panicked "called Result::unwrap on an Err value"
      fs := fs, spawn_attempts := [], children_created := 0,
      waited_on_child := false }

/-- Operating-system family, selecting the conditionally compiled block. -/
inductive Platform where
  | windows
  | other
deriving DecidableEq, Repr

/-- The whole setup closure: the Windows block when compiled for Windows,
nothing (falling straight through to `Ok(())`) on every other platform. -/
def setup (p : Platform) (env : OsEnv) (manifest_dir : String) (fs : FS) :
    SetupOutcome :=
  match p with
  | .windows => windows_setup env manifest_dir fs
  | .other =>
    { result := .returnedOk, fs := fs, spawn_attempts := [],
      children_created := 0, waited_on_child := false }

/-- Host startup continues exactly when the setup closure returned `Ok(())`
rather than panicking out of an `unwrap`. -/
def host_startup_proceeds (o : SetupOutcome) : Prop :=
  o.result = .returnedOk

/-- Number of children a spawn result creates: one on success, none on
failure. -/
def spawn_children (r : Except String Nat) : Nat :=
  match r with
  | .ok _ => 1
  | .error _ => 0

/-! ## Helper lemmas -/

theorem append_ne_of_ne (s : String) {a b : String} (h : a ≠ b) :
    s ++ a ≠ s ++ b := by
  intro he
  apply h
  have hd : (s ++ a).data = (s ++ b).data := by rw [he]
  rw [String.data_append, String.data_append] at hd
  exact String.ext (List.append_cancel_left hd)

theorem spawn_ok_ne_spawn_err (m : String) : spawn_ok_path m ≠ spawn_err_path m :=
  append_ne_of_ne (backend_dir m) (by decide)

theorem spawn_ok_ne_out (m : String) : spawn_ok_path m ≠ out_path m :=
  append_ne_of_ne (backend_dir m) (by decide)

theorem spawn_ok_ne_err (m : String) : spawn_ok_path m ≠ err_path m :=
  append_ne_of_ne (backend_dir m) (by decide)

theorem spawn_err_ne_out (m : String) : spawn_err_path m ≠ out_path m :=
  append_ne_of_ne (backend_dir m) (by decide)

theorem spawn_err_ne_err (m : String) : spawn_err_path m ≠ err_path m :=
  append_ne_of_ne (backend_dir m) (by decide)

theorem out_ne_err (m : String) : out_path m ≠ err_path m :=
  append_ne_of_ne (backend_dir m) (by decide)

theorem FS.write_trunc_same (fs : FS) (p c : String) :
    fs.write_trunc p c p = some c := by
  simp [FS.write_trunc]

theorem FS.write_trunc_other (fs : FS) {p q : String} (c : String) (h : q ≠ p) :
    fs.write_trunc p c q = fs q := by
  simp [FS.write_trunc, h]

theorem FS.open_append_create_other (fs : FS) {p q : String} (h : q ≠ p) :
    fs.open_append_create p q = fs q := by
  simp [FS.open_append_create, h]

theorem FS.open_append_create_keeps (fs : FS) {p c : String} (h : fs p = some c) :
    fs.open_append_create p p = some c := by
  simp [FS.open_append_create, h]

theorem fs_write_dropped_other (env : OsEnv) (fs : FS) {p q : String} (c : String)
    (h : q ≠ p) : fs_write_dropped env fs p c q = fs q := by
  unfold fs_write_dropped
  split
  · exact FS.write_trunc_other fs c h
  · rfl

/-- The two log files after both append-mode opens. -/
def logs_opened (m : String) (fs : FS) : FS :=
  (fs.open_append_create (out_path m)).open_append_create (err_path m)

/-- The fully configured launch command built by the Windows block. -/
def configured_cmd (m : String) : Command :=
  ((((((Command.new (python_exe m)).current_dir (backend_dir m)).args
    ["-m", "uvicorn", "main:app", "--host", "127.0.0.1", "--port", "8000"]).stdout
    (out_path m)).stderr (err_path m)).creation_flags 0x08000000)

theorem windows_setup_success (env : OsEnv) (m : String) (fs : FS) (p : Nat)
    (h1 : env.open_append_ok (out_path m) = true)
    (h2 : env.open_append_ok (err_path m) = true)
    (hs : env.spawn_result = .ok p) :
    windows_setup env m fs =
      { result := .returnedOk,
        fs := fs_write_dropped env (logs_opened m fs) (spawn_ok_path m) "spawn ok\n",
        spawn_attempts := [configured_cmd m],
        children_created := 1,
        waited_on_child := false } := by
  simp [windows_setup, h1, h2, hs, configured_cmd, logs_opened]

theorem windows_setup_error (env : OsEnv) (m : String) (fs : FS) (e : String)
    (h1 : env.open_append_ok (out_path m) = true)
    (h2 : env.open_append_ok (err_path m) = true)
    (hs : env.spawn_result = .error e) :
    windows_setup env m fs =
      { result := .returnedOk,
        fs := fs_write_dropped env (logs_opened m fs) (spawn_err_path m)
          ("spawn error: " ++ e ++ "\n"),
        spawn_attempts := [configured_cmd m],
        children_created := 0,
        waited_on_child := false } := by
  simp [windows_setup, h1, h2, hs, configured_cmd, logs_opened]

theorem windows_setup_out_open_fail (env : OsEnv) (m : String) (fs : FS)
    (h1 : env.open_append_ok (out_path m) = false) :
    windows_setup env m fs =
      { result := .panicked "called Result::unwrap on an Err value",
        fs := fs, spawn_attempts := [], children_created := 0,
        waited_on_child := false } := by
  simp [windows_setup, h1]

theorem windows_setup_err_open_fail (env : OsEnv) (m : String) (fs : FS)
    (h1 : env.open_append_ok (out_path m) = true)
    (h2 : env.open_append_ok (err_path m) = false) :
    windows_setup env m fs =
      { result := .panicked "called Result::unwrap on an Err value",
        fs := fs.open_append_create (out_path m), spawn_attempts := [],
        children_created := 0, waited_on_child := false } := by
  simp [windows_setup, h1, h2]

theorem logs_opened_status_ok (m : String) (fs : FS) :
    logs_opened m fs (spawn_ok_path m) = fs (spawn_ok_path m) := by
  unfold logs_opened
  rw [FS.open_append_create_other _ (spawn_ok_ne_err m),
    FS.open_append_create_other _ (spawn_ok_ne_out m)]

theorem logs_opened_status_err (m : String) (fs : FS) :
    logs_opened m fs (spawn_err_path m) = fs (spawn_err_path m) := by
  unfold logs_opened
  rw [FS.open_append_create_other _ (spawn_err_ne_err m),
    FS.open_append_create_other _ (spawn_err_ne_out m)]

theorem fs_write_dropped_hit (env : OsEnv) (fs : FS) (p c : String)
    (h : env.write_ok p = true) : fs_write_dropped env fs p c p = some c := by
  unfold fs_write_dropped
  rw [h, if_pos rfl]
  exact FS.write_trunc_same fs p c

theorem FS.open_append_create_same (fs : FS) (p : String) :
    fs.open_append_create p p = some ((fs p).getD "") := by
  simp [FS.open_append_create]

theorem fs_write_dropped_nowrite (env : OsEnv) (fs : FS) (p c : String)
    (h : env.write_ok p = false) : fs_write_dropped env fs p c = fs := by
  unfold fs_write_dropped
  rw [h]
  rfl

theorem logs_opened_out (m : String) (fs : FS) :
    logs_opened m fs (out_path m) = some ((fs (out_path m)).getD "") := by
  unfold logs_opened
  rw [FS.open_append_create_other _ (out_ne_err m)]
  exact FS.open_append_create_same fs (out_path m)

theorem logs_opened_err (m : String) (fs : FS) :
    logs_opened m fs (err_path m) = some ((fs (err_path m)).getD "") := by
  unfold logs_opened
  rw [FS.open_append_create_same, FS.open_append_create_other _
    (Ne.symm (out_ne_err m))]

theorem windows_setup_success_out (env : OsEnv) (m : String) (fs : FS) (p : Nat)
    (h1 : env.open_append_ok (out_path m) = true)
    (h2 : env.open_append_ok (err_path m) = true)
    (hs : env.spawn_result = .ok p) :
    (windows_setup env m fs).fs (out_path m) = some ((fs (out_path m)).getD "") := by
  rw [windows_setup_success env m fs p h1 h2 hs]
  exact (fs_write_dropped_other env _ _ (Ne.symm (spawn_ok_ne_out m))).trans
    (logs_opened_out m fs)

theorem windows_setup_success_err (env : OsEnv) (m : String) (fs : FS) (p : Nat)
    (h1 : env.open_append_ok (out_path m) = true)
    (h2 : env.open_append_ok (err_path m) = true)
    (hs : env.spawn_result = .ok p) :
    (windows_setup env m fs).fs (err_path m) = some ((fs (err_path m)).getD "") := by
  rw [windows_setup_success env m fs p h1 h2 hs]
  exact (fs_write_dropped_other env _ _ (Ne.symm (spawn_ok_ne_err m))).trans
    (logs_opened_err m fs)

/-! ## Claim theorems -/

/-- Claim C1: on Windows, when the spawn attempt fails with OS error message
`e`, the setup closure raises no fatal error from the spawn step: it records
`"spawn error: " ++ e ++ "\n"` in `tauri_spawn_err.log` inside the backend
directory, makes exactly one spawn attempt (no retry), leaves
`tauri_spawn_ok.log` exactly as it was, and returns so that host startup
proceeds. -/
theorem c1_spawn_failure_nonfatal (env : OsEnv) (m : String) (fs : FS) (e : String)
    (h1 : env.open_append_ok (out_path m) = true)
    (h2 : env.open_append_ok (err_path m) = true)
    (h3 : env.spawn_result = .error e)
    (h4 : env.write_ok (spawn_err_path m) = true) :
    (windows_setup env m fs).result = .returnedOk ∧
    (windows_setup env m fs).fs (spawn_err_path m)
      = some ("spawn error: " ++ e ++ "\n") ∧
    (windows_setup env m fs).spawn_attempts.length = 1 ∧
    (windows_setup env m fs).fs (spawn_ok_path m) = fs (spawn_ok_path m) ∧
    host_startup_proceeds (windows_setup env m fs) := by
  rw [windows_setup_error env m fs e h1 h2 h3]
  refine ⟨rfl, ?_, rfl, ?_, rfl⟩
  · exact fs_write_dropped_hit env (logs_opened m fs) (spawn_err_path m) _ h4
  · exact (fs_write_dropped_other env (logs_opened m fs) _
      (spawn_ok_ne_spawn_err m)).trans (logs_opened_status_ok m fs)

theorem c1_witness :
    (windows_setup ⟨fun _ => true, .error "os error 2", fun _ => true⟩
      "C:\\app\\ui\\src-tauri" (fun _ => none)).result = .returnedOk ∧
    (windows_setup ⟨fun _ => true, .error "os error 2", fun _ => true⟩
      "C:\\app\\ui\\src-tauri" (fun _ => none)).fs
        (spawn_err_path "C:\\app\\ui\\src-tauri")
      = some ("spawn error: " ++ "os error 2" ++ "\n") ∧
    (windows_setup ⟨fun _ => true, .error "os error 2", fun _ => true⟩
      "C:\\app\\ui\\src-tauri" (fun _ => none)).spawn_attempts.length = 1 ∧
    (windows_setup ⟨fun _ => true, .error "os error 2", fun _ => true⟩
      "C:\\app\\ui\\src-tauri" (fun _ => none)).fs
        (spawn_ok_path "C:\\app\\ui\\src-tauri")
      = (fun _ => none : FS) (spawn_ok_path "C:\\app\\ui\\src-tauri") ∧
    host_startup_proceeds (windows_setup ⟨fun _ => true, .error "os error 2",
      fun _ => true⟩ "C:\\app\\ui\\src-tauri" (fun _ => none)) :=
  c1_spawn_failure_nonfatal _ _ _ _ rfl rfl rfl rfl

/-- Claim C2: on Windows, when the spawn attempt succeeds, the setup closure
writes exactly `"spawn ok\n"` to `tauri_spawn_ok.log` in the backend
directory, leaves `tauri_spawn_err.log` exactly as it was, creates exactly
one child process, and never waits on the child handle. -/
theorem c2_spawn_success (env : OsEnv) (m : String) (fs : FS) (p : Nat)
    (h1 : env.open_append_ok (out_path m) = true)
    (h2 : env.open_append_ok (err_path m) = true)
    (h3 : env.spawn_result = .ok p)
    (h4 : env.write_ok (spawn_ok_path m) = true) :
    (windows_setup env m fs).fs (spawn_ok_path m) = some "spawn ok\n" ∧
    (windows_setup env m fs).fs (spawn_err_path m) = fs (spawn_err_path m) ∧
    (windows_setup env m fs).children_created = 1 ∧
    (windows_setup env m fs).waited_on_child = false := by
  rw [windows_setup_success env m fs p h1 h2 h3]
  refine ⟨?_, ?_, rfl, rfl⟩
  · exact fs_write_dropped_hit env (logs_opened m fs) (spawn_ok_path m) _ h4
  · exact (fs_write_dropped_other env (logs_opened m fs) _
      (Ne.symm (spawn_ok_ne_spawn_err m))).trans (logs_opened_status_err m fs)

theorem c2_witness :
    (windows_setup ⟨fun _ => true, .ok 4242, fun _ => true⟩
      "C:\\app\\ui\\src-tauri" (fun _ => none)).fs
        (spawn_ok_path "C:\\app\\ui\\src-tauri") = some "spawn ok\n" ∧
    (windows_setup ⟨fun _ => true, .ok 4242, fun _ => true⟩
      "C:\\app\\ui\\src-tauri" (fun _ => none)).fs
        (spawn_err_path "C:\\app\\ui\\src-tauri")
      = (fun _ => none : FS) (spawn_err_path "C:\\app\\ui\\src-tauri") ∧
    (windows_setup ⟨fun _ => true, .ok 4242, fun _ => true⟩
      "C:\\app\\ui\\src-tauri" (fun _ => none)).children_created = 1 ∧
    (windows_setup ⟨fun _ => true, .ok 4242, fun _ => true⟩
      "C:\\app\\ui\\src-tauri" (fun _ => none)).waited_on_child = false :=
  c2_spawn_success _ _ _ 4242 rfl rfl rfl rfl

/-- Claim C3: on Windows, if opening either `backend_out.log` or
`backend_err.log` for create/append fails, the setup closure panics out of
`unwrap`, so host startup does not proceed, no spawn attempt is made, and
neither status file is written. -/
theorem c3_log_open_failure_fatal (env : OsEnv) (m : String) (fs : FS)
    (h : env.open_append_ok (out_path m) = false ∨
      env.open_append_ok (err_path m) = false) :
    ¬ host_startup_proceeds (windows_setup env m fs) ∧
    (windows_setup env m fs).spawn_attempts = [] ∧
    (windows_setup env m fs).fs (spawn_ok_path m) = fs (spawn_ok_path m) ∧
    (windows_setup env m fs).fs (spawn_err_path m) = fs (spawn_err_path m) := by
  rcases h with h | h
  · rw [windows_setup_out_open_fail env m fs h]
    refine ⟨?_, rfl, rfl, rfl⟩
    simp [host_startup_proceeds]
  · rcases ho : env.open_append_ok (out_path m) with _ | _
    · rw [windows_setup_out_open_fail env m fs ho]
      refine ⟨?_, rfl, rfl, rfl⟩
      simp [host_startup_proceeds]
    · rw [windows_setup_err_open_fail env m fs ho h]
      refine ⟨?_, rfl, ?_, ?_⟩
      · simp [host_startup_proceeds]
      · exact FS.open_append_create_other fs (spawn_ok_ne_out m)
      · exact FS.open_append_create_other fs (spawn_err_ne_out m)

theorem c3_witness :
    ¬ host_startup_proceeds (windows_setup ⟨fun _ => false, .ok 1, fun _ => true⟩
      "C:\\app\\ui\\src-tauri" (fun _ => none)) ∧
    (windows_setup ⟨fun _ => false, .ok 1, fun _ => true⟩
      "C:\\app\\ui\\src-tauri" (fun _ => none)).spawn_attempts = [] ∧
    (windows_setup ⟨fun _ => false, .ok 1, fun _ => true⟩
      "C:\\app\\ui\\src-tauri" (fun _ => none)).fs
        (spawn_ok_path "C:\\app\\ui\\src-tauri")
      = (fun _ => none : FS) (spawn_ok_path "C:\\app\\ui\\src-tauri") ∧
    (windows_setup ⟨fun _ => false, .ok 1, fun _ => true⟩
      "C:\\app\\ui\\src-tauri" (fun _ => none)).fs
        (spawn_err_path "C:\\app\\ui\\src-tauri")
      = (fun _ => none : FS) (spawn_err_path "C:\\app\\ui\\src-tauri") :=
  c3_log_open_failure_fatal _ _ _ (Or.inl rfl)

/-- Claim C4: on Windows, the launch command handed to the one spawn attempt
carries exactly the argument vector
`["-m", "uvicorn", "main:app", "--host", "127.0.0.1", "--port", "8000"]`,
redirects the child's stdout and stderr to the two opened log files, and sets
the `CREATE_NO_WINDOW` creation flag `0x08000000`. -/
theorem c4_command_configuration (env : OsEnv) (m : String) (fs : FS)
    (h1 : env.open_append_ok (out_path m) = true)
    (h2 : env.open_append_ok (err_path m) = true) :
    (windows_setup env m fs).spawn_attempts.length = 1 ∧
    ∀ cmd ∈ (windows_setup env m fs).spawn_attempts,
      cmd.argv = ["-m", "uvicorn", "main:app", "--host", "127.0.0.1",
        "--port", "8000"] ∧
      cmd.stdout_redirect = some (out_path m) ∧
      cmd.stderr_redirect = some (err_path m) ∧
      cmd.flags = 0x08000000 := by
  rcases hs : env.spawn_result with e | p
  · rw [windows_setup_error env m fs e h1 h2 hs]
    exact ⟨rfl, by simp [configured_cmd, Command.new, Command.current_dir,
      Command.args, Command.stdout, Command.stderr, Command.creation_flags]⟩
  · rw [windows_setup_success env m fs p h1 h2 hs]
    exact ⟨rfl, by simp [configured_cmd, Command.new, Command.current_dir,
      Command.args, Command.stdout, Command.stderr, Command.creation_flags]⟩

theorem c4_witness :
    (windows_setup ⟨fun _ => true, .ok 4242, fun _ => true⟩
      "C:\\app\\ui\\src-tauri" (fun _ => none)).spawn_attempts.length = 1 ∧
    ∀ cmd ∈ (windows_setup ⟨fun _ => true, .ok 4242, fun _ => true⟩
      "C:\\app\\ui\\src-tauri" (fun _ => none)).spawn_attempts,
      cmd.argv = ["-m", "uvicorn", "main:app", "--host", "127.0.0.1",
        "--port", "8000"] ∧
      cmd.stdout_redirect = some (out_path "C:\\app\\ui\\src-tauri") ∧
      cmd.stderr_redirect = some (err_path "C:\\app\\ui\\src-tauri") ∧
      cmd.flags = 0x08000000 :=
  c4_command_configuration _ _ _ rfl rfl

/-- Claim C5: on Windows, `backend_dir` is the manifest directory extended by
the fixed relative path `\..\..\backend`, the interpreter path is
`backend_dir` extended by `\.venv\Scripts\python.exe`, and the one attempted
command runs that interpreter with its working directory set to
`backend_dir`. -/
theorem c5_fixed_paths (env : OsEnv) (m : String) (fs : FS)
    (h1 : env.open_append_ok (out_path m) = true)
    (h2 : env.open_append_ok (err_path m) = true) :
    backend_dir m = m ++ "\\..\\..\\backend" ∧
    python_exe m = m ++ "\\..\\..\\backend" ++ "\\.venv\\Scripts\\python.exe" ∧
    ∀ cmd ∈ (windows_setup env m fs).spawn_attempts,
      cmd.program = python_exe m ∧ cmd.cwd = some (backend_dir m) := by
  refine ⟨rfl, rfl, ?_⟩
  rcases hs : env.spawn_result with e | p
  · rw [windows_setup_error env m fs e h1 h2 hs]
    simp [configured_cmd, Command.new, Command.current_dir, Command.args,
      Command.stdout, Command.stderr, Command.creation_flags]
  · rw [windows_setup_success env m fs p h1 h2 hs]
    simp [configured_cmd, Command.new, Command.current_dir, Command.args,
      Command.stdout, Command.stderr, Command.creation_flags]

theorem c5_witness :
    backend_dir "C:\\app\\ui\\src-tauri"
      = "C:\\app\\ui\\src-tauri" ++ "\\..\\..\\backend" ∧
    python_exe "C:\\app\\ui\\src-tauri"
      = "C:\\app\\ui\\src-tauri" ++ "\\..\\..\\backend"
        ++ "\\.venv\\Scripts\\python.exe" ∧
    ∀ cmd ∈ (windows_setup ⟨fun _ => true, .ok 17, fun _ => true⟩
      "C:\\app\\ui\\src-tauri" (fun _ => none)).spawn_attempts,
      cmd.program = python_exe "C:\\app\\ui\\src-tauri" ∧
      cmd.cwd = some (backend_dir "C:\\app\\ui\\src-tauri") :=
  c5_fixed_paths _ _ _ rfl rfl

/-- Claim C6: on every platform other than Windows the setup closure is a
no-op: no spawn attempt, no child, no file touched, the filesystem is
returned unchanged, and host startup proceeds. -/
theorem c6_non_windows_noop (env : OsEnv) (m : String) (fs : FS) :
    setup .other env m fs =
      { result := .returnedOk, fs := fs, spawn_attempts := [],
        children_created := 0, waited_on_child := false } ∧
    host_startup_proceeds (setup .other env m fs) :=
  ⟨rfl, rfl⟩

/-- Claim C8: on every platform and for every environment, the setup closure
makes at most one spawn attempt, never waits on a child, and whenever it does
not return `Ok(())` (the unwrap-panic case) no spawn attempt was made at all
— so whenever a spawn attempt happened, successful or not, control returns
to the host. -/
theorem c8_single_attempt_nonblocking (p : Platform) (env : OsEnv) (m : String)
    (fs : FS) :
    (setup p env m fs).spawn_attempts.length ≤ 1 ∧
    (setup p env m fs).waited_on_child = false ∧
    ((setup p env m fs).result = .returnedOk ∨
      (setup p env m fs).spawn_attempts = []) := by
  cases p with
  | other => exact ⟨Nat.le_refl 0 |>.trans (Nat.le_succ 0), rfl, Or.inl rfl⟩
  | windows =>
    show (windows_setup env m fs).spawn_attempts.length ≤ 1 ∧
      (windows_setup env m fs).waited_on_child = false ∧
      ((windows_setup env m fs).result = .returnedOk ∨
        (windows_setup env m fs).spawn_attempts = [])
    by_cases ho : env.open_append_ok (out_path m) = true
    · by_cases he : env.open_append_ok (err_path m) = true
      · rcases hs : env.spawn_result with e | q
        · rw [windows_setup_error env m fs e ho he hs]
          exact ⟨Nat.le_refl 1, rfl, Or.inl rfl⟩
        · rw [windows_setup_success env m fs q ho he hs]
          exact ⟨Nat.le_refl 1, rfl, Or.inl rfl⟩
      · rw [windows_setup_err_open_fail env m fs ho
          (Bool.not_eq_true _ ▸ he : env.open_append_ok (err_path m) = false)]
        exact ⟨Nat.zero_le 1, rfl, Or.inr rfl⟩
    · rw [windows_setup_out_open_fail env m fs
        (Bool.not_eq_true _ ▸ ho : env.open_append_ok (out_path m) = false)]
      exact ⟨Nat.zero_le 1, rfl, Or.inr rfl⟩

/-- Claim C7: invoking the setup closure twice in sequence on Windows (both
spawns succeeding) opens the two log files in append mode both times: the
contents of `backend_out.log` and `backend_err.log` left by the first
invocation are preserved unchanged by the second, and each invocation
creates its own child process. -/
theorem c7_double_invocation_appends (env1 env2 : OsEnv) (m : String) (fs : FS)
    (p1 p2 : Nat)
    (h1 : env1.open_append_ok (out_path m) = true)
    (h2 : env1.open_append_ok (err_path m) = true)
    (h3 : env2.open_append_ok (out_path m) = true)
    (h4 : env2.open_append_ok (err_path m) = true)
    (hs1 : env1.spawn_result = .ok p1)
    (hs2 : env2.spawn_result = .ok p2) :
    (windows_setup env2 m (windows_setup env1 m fs).fs).fs (out_path m)
      = (windows_setup env1 m fs).fs (out_path m) ∧
    (windows_setup env2 m (windows_setup env1 m fs).fs).fs (err_path m)
      = (windows_setup env1 m fs).fs (err_path m) ∧
    (windows_setup env1 m fs).children_created = 1 ∧
    (windows_setup env2 m (windows_setup env1 m fs).fs).children_created = 1 := by
  have hgo : (windows_setup env1 m fs).fs (out_path m)
      = some ((fs (out_path m)).getD "") :=
    windows_setup_success_out env1 m fs p1 h1 h2 hs1
  have hge : (windows_setup env1 m fs).fs (err_path m)
      = some ((fs (err_path m)).getD "") :=
    windows_setup_success_err env1 m fs p1 h1 h2 hs1
  refine ⟨?_, ?_, ?_, ?_⟩
  · rw [windows_setup_success_out env2 m _ p2 h3 h4 hs2, hgo]
    rfl
  · rw [windows_setup_success_err env2 m _ p2 h3 h4 hs2, hge]
    rfl
  · rw [windows_setup_success env1 m fs p1 h1 h2 hs1]
  · rw [windows_setup_success env2 m _ p2 h3 h4 hs2]

theorem c7_witness :
    (windows_setup ⟨fun _ => true, .ok 8, fun _ => true⟩ "C:\\app\\ui\\src-tauri"
        (windows_setup ⟨fun _ => true, .ok 7, fun _ => true⟩
          "C:\\app\\ui\\src-tauri" (fun _ => none)).fs).fs
        (out_path "C:\\app\\ui\\src-tauri")
      = (windows_setup ⟨fun _ => true, .ok 7, fun _ => true⟩
          "C:\\app\\ui\\src-tauri" (fun _ => none)).fs
        (out_path "C:\\app\\ui\\src-tauri") ∧
    (windows_setup ⟨fun _ => true, .ok 8, fun _ => true⟩ "C:\\app\\ui\\src-tauri"
        (windows_setup ⟨fun _ => true, .ok 7, fun _ => true⟩
          "C:\\app\\ui\\src-tauri" (fun _ => none)).fs).fs
        (err_path "C:\\app\\ui\\src-tauri")
      = (windows_setup ⟨fun _ => true, .ok 7, fun _ => true⟩
          "C:\\app\\ui\\src-tauri" (fun _ => none)).fs
        (err_path "C:\\app\\ui\\src-tauri") ∧
    (windows_setup ⟨fun _ => true, .ok 7, fun _ => true⟩ "C:\\app\\ui\\src-tauri"
      (fun _ => none)).children_created = 1 ∧
    (windows_setup ⟨fun _ => true, .ok 8, fun _ => true⟩ "C:\\app\\ui\\src-tauri"
      (windows_setup ⟨fun _ => true, .ok 7, fun _ => true⟩
        "C:\\app\\ui\\src-tauri" (fun _ => none)).fs).children_created = 1 :=
  c7_double_invocation_appends _ _ _ _ 7 8 rfl rfl rfl rfl rfl rfl

/-- Claim C9: an I/O error while writing a status file is silently discarded:
with both status-file writes failing, the setup closure still returns
`Ok(())`, host startup proceeds, both status files are left exactly as they
were, exactly one spawn attempt is made, and the branch taken still matches
the spawn outcome (one child on success, none on failure). -/
theorem c9_status_write_error_dropped (env : OsEnv) (m : String) (fs : FS)
    (h1 : env.open_append_ok (out_path m) = true)
    (h2 : env.open_append_ok (err_path m) = true)
    (h3 : env.write_ok (spawn_ok_path m) = false)
    (h4 : env.write_ok (spawn_err_path m) = false) :
    (windows_setup env m fs).result = .returnedOk ∧
    host_startup_proceeds (windows_setup env m fs) ∧
    (windows_setup env m fs).fs (spawn_ok_path m) = fs (spawn_ok_path m) ∧
    (windows_setup env m fs).fs (spawn_err_path m) = fs (spawn_err_path m) ∧
    (windows_setup env m fs).spawn_attempts.length = 1 ∧
    (windows_setup env m fs).children_created = spawn_children env.spawn_result := by
  rcases hs : env.spawn_result with e | q
  · rw [windows_setup_error env m fs e h1 h2 hs]
    refine ⟨rfl, rfl, ?_, ?_, rfl, rfl⟩
    · exact (fs_write_dropped_other env _ _ (spawn_ok_ne_spawn_err m)).trans
        (logs_opened_status_ok m fs)
    · rw [fs_write_dropped_nowrite env _ _ _ h4]
      exact logs_opened_status_err m fs
  · rw [windows_setup_success env m fs q h1 h2 hs]
    refine ⟨rfl, rfl, ?_, ?_, rfl, rfl⟩
    · rw [fs_write_dropped_nowrite env _ _ _ h3]
      exact logs_opened_status_ok m fs
    · exact (fs_write_dropped_other env _ _
        (Ne.symm (spawn_ok_ne_spawn_err m))).trans (logs_opened_status_err m fs)

theorem c9_witness :
    (windows_setup ⟨fun _ => true, .ok 9, fun _ => false⟩
      "C:\\app\\ui\\src-tauri" (fun _ => none)).result = .returnedOk ∧
    host_startup_proceeds (windows_setup ⟨fun _ => true, .ok 9, fun _ => false⟩
      "C:\\app\\ui\\src-tauri" (fun _ => none)) ∧
    (windows_setup ⟨fun _ => true, .ok 9, fun _ => false⟩
      "C:\\app\\ui\\src-tauri" (fun _ => none)).fs
        (spawn_ok_path "C:\\app\\ui\\src-tauri")
      = (fun _ => none : FS) (spawn_ok_path "C:\\app\\ui\\src-tauri") ∧
    (windows_setup ⟨fun _ => true, .ok 9, fun _ => false⟩
      "C:\\app\\ui\\src-tauri" (fun _ => none)).fs
        (spawn_err_path "C:\\app\\ui\\src-tauri")
      = (fun _ => none : FS) (spawn_err_path "C:\\app\\ui\\src-tauri") ∧
    (windows_setup ⟨fun _ => true, .ok 9, fun _ => false⟩
      "C:\\app\\ui\\src-tauri" (fun _ => none)).spawn_attempts.length = 1 ∧
    (windows_setup ⟨fun _ => true, .ok 9, fun _ => false⟩
      "C:\\app\\ui\\src-tauri" (fun _ => none)).children_created
      = spawn_children (OsEnv.spawn_result ⟨fun _ => true, .ok 9, fun _ => false⟩) :=
  c9_status_write_error_dropped _ _ _ rfl rfl rfl rfl

/-- Claim C10: each spawn attempt writes only its own status file with a
truncating whole-file write and never touches the opposite one. After a
launch whose spawn failed with `e1`, another whose spawn failed with `e2`,
and a third whose spawn succeeded, `tauri_spawn_err.log` holds exactly the
second error line (overwritten, not appended, and not deleted by the
successful launch) while `tauri_spawn_ok.log` holds `"spawn ok\n"` — both
status files exist on disk. -/
theorem c10_status_files_persist (env1 env2 env3 : OsEnv) (m : String) (fs : FS)
    (e1 e2 : String) (p3 : Nat)
    (_h1 : env1.open_append_ok (out_path m) = true)
    (_h2 : env1.open_append_ok (err_path m) = true)
    (h3 : env2.open_append_ok (out_path m) = true)
    (h4 : env2.open_append_ok (err_path m) = true)
    (h5 : env3.open_append_ok (out_path m) = true)
    (h6 : env3.open_append_ok (err_path m) = true)
    (_hs1 : env1.spawn_result = .error e1)
    (hs2 : env2.spawn_result = .error e2)
    (hs3 : env3.spawn_result = .ok p3)
    (hw2 : env2.write_ok (spawn_err_path m) = true)
    (hw3 : env3.write_ok (spawn_ok_path m) = true) :
    (windows_setup env3 m (windows_setup env2 m
        (windows_setup env1 m fs).fs).fs).fs (spawn_err_path m)
      = some ("spawn error: " ++ e2 ++ "\n") ∧
    (windows_setup env3 m (windows_setup env2 m
        (windows_setup env1 m fs).fs).fs).fs (spawn_ok_path m)
      = some "spawn ok\n" := by
  have hf2 : (windows_setup env2 m (windows_setup env1 m fs).fs).fs
      (spawn_err_path m) = some ("spawn error: " ++ e2 ++ "\n") := by
    rw [windows_setup_error env2 m _ e2 h3 h4 hs2]
    exact fs_write_dropped_hit env2 _ (spawn_err_path m) _ hw2
  constructor
  · rw [windows_setup_success env3 m _ p3 h5 h6 hs3]
    exact ((fs_write_dropped_other env3 _ _
      (Ne.symm (spawn_ok_ne_spawn_err m))).trans
      (logs_opened_status_err m _)).trans hf2
  · rw [windows_setup_success env3 m _ p3 h5 h6 hs3]
    exact fs_write_dropped_hit env3 _ (spawn_ok_path m) _ hw3

theorem c10_witness :
    (windows_setup ⟨fun _ => true, .ok 3, fun _ => true⟩ "C:\\app\\ui\\src-tauri"
        (windows_setup ⟨fun _ => true, .error "err two", fun _ => true⟩
          "C:\\app\\ui\\src-tauri"
          (windows_setup ⟨fun _ => true, .error "err one", fun _ => true⟩
            "C:\\app\\ui\\src-tauri" (fun _ => none)).fs).fs).fs
        (spawn_err_path "C:\\app\\ui\\src-tauri")
      = some ("spawn error: " ++ "err two" ++ "\n") ∧
    (windows_setup ⟨fun _ => true, .ok 3, fun _ => true⟩ "C:\\app\\ui\\src-tauri"
        (windows_setup ⟨fun _ => true, .error "err two", fun _ => true⟩
          "C:\\app\\ui\\src-tauri"
          (windows_setup ⟨fun _ => true, .error "err one", fun _ => true⟩
            "C:\\app\\ui\\src-tauri" (fun _ => none)).fs).fs).fs
        (spawn_ok_path "C:\\app\\ui\\src-tauri")
      = some "spawn ok\n" :=
  c10_status_files_persist _ _ _ _ _ "err one" "err two" 3
    rfl rfl rfl rfl rfl rfl rfl rfl rfl rfl rfl
